import Mathlib

/-!
Verification of the quantitative valuation and simulation core of the
StocksAnalyser2025 repository: the multi-scenario DCF valuator
(`calculate_dcf_valor` in src/utils/utils.py and `dcf_from_fcf_list` in
the DCF-calculator page), the Monte Carlo price-path simulator
(`monte_carlo_simulation`), the RSI helper (`compute_rsi`), the composite
technical-indicator scorer (`analyze_price_action`) and the BUY/HOLD/SELL
classification of its score.

Modelling conventions:
* Python floats are modelled by exact rationals; where the source computes
  square roots or exponentials they are modelled over the reals.
* A Python float division by literal zero raises `ZeroDivisionError`; every
  such division site in the modelled code is guarded explicitly and mapped
  to `PyErr.zeroDivision`.  Pandas/NumPy element-wise division by zero
  instead produces `inf`/`NaN`; where a claim depends on that (the RSI
  helper) the extended values are modelled explicitly by `FVal`.
* NumPy randomness (`np.random.normal`) is modelled by an oracle of
  standard-normal draws supplied as an explicit argument.
-/

namespace StocksAnalyser

/-- Python exceptions / error outcomes the modelled code can produce.  In
`calculate_dcf_valor` every raise site is caught by the surrounding
`try/except` and turned into the single `{"Error": str(e)}` return value;
the constructors record which raise site fired. -/
inductive PyErr where
  | missingData
  | invalidAssumption
  | zeroDivision
  | indexError
  | insufficientData
  | missingColumn (name : String)
  deriving Repr, DecidableEq

/-! ## Python `round` (banker's rounding) -/

/-- Round half to even, Python's `round` on an exact value. -/
def roundHalfEven (q : ℚ) : ℤ :=
  if q - ⌊q⌋ < 1/2 then ⌊q⌋
  else if 1/2 < q - ⌊q⌋ then ⌊q⌋ + 1
  else if ⌊q⌋ % 2 = 0 then ⌊q⌋ else ⌊q⌋ + 1

/-- Python `round(x, 2)` as used on the per-share values of
`calculate_dcf_valor`. -/
def round2 (x : ℚ) : ℚ := (roundHalfEven (100 * x) : ℚ) / 100

theorem roundHalfEven_ge (q : ℚ) : ⌊q⌋ ≤ roundHalfEven q := by
  unfold roundHalfEven; split_ifs <;> omega

theorem roundHalfEven_le (q : ℚ) : roundHalfEven q ≤ ⌊q⌋ + 1 := by
  unfold roundHalfEven; split_ifs <;> omega

theorem roundHalfEven_mono {x y : ℚ} (h : x ≤ y) :
    roundHalfEven x ≤ roundHalfEven y := by
  have hf : ⌊x⌋ ≤ ⌊y⌋ := Int.floor_le_floor h
  rcases lt_or_eq_of_le hf with hl | he
  · calc roundHalfEven x ≤ ⌊x⌋ + 1 := roundHalfEven_le x
    _ ≤ ⌊y⌋ := by omega
    _ ≤ roundHalfEven y := roundHalfEven_ge y
  · have hcast : ((⌊x⌋ : ℚ)) = ((⌊y⌋ : ℚ)) := by exact_mod_cast he
    have hfr : x - (⌊y⌋ : ℚ) ≤ y - (⌊y⌋ : ℚ) := by rw [← hcast]; linarith
    unfold roundHalfEven
    rw [he]
    split_ifs <;> first | omega | linarith

theorem round2_mono {x y : ℚ} (h : x ≤ y) : round2 x ≤ round2 y := by
  unfold round2
  have h100 : (100 : ℚ) * x ≤ 100 * y := by linarith
  have := roundHalfEven_mono h100
  have hc : (roundHalfEven (100 * x) : ℚ) ≤ (roundHalfEven (100 * y) : ℚ) := by
    exact_mod_cast this
  linarith

/-! ## DCF valuator (`calculate_dcf_valor`, src/utils/utils.py) -/

/-- The optional fundamentals fields read from `stock.info.get(...)`.
`none` models an absent field (`info.get` returning `None`). -/
structure Info where
  totalRevenue : Option ℚ
  freeCashflow : Option ℚ
  sharesOutstanding : Option ℚ
  currentPrice : Option ℚ
  totalDebt : Option ℚ
  cash : Option ℚ
  deriving Repr, DecidableEq

/-- Python truthiness of an optional float: `None` and `0.0` are falsy. -/
def truthy : Option ℚ → Bool
  | none => false
  | some x => decide (x ≠ 0)

/-- One unrolling of the loop body of `project_fcf` inside
`calculate_dcf_valor`: `rev *= (1 + growth_rate); fcf_list.append(rev *
fcf_margin)`, run `n` more times starting from the current `rev`. -/
def projectAux (fcf_margin g : ℚ) (rev : ℚ) : ℕ → List ℚ
  | 0 => []
  | n + 1 => rev * (1 + g) * fcf_margin :: projectAux fcf_margin g (rev * (1 + g)) n

/-- `project_fcf(growth_rate)` from `calculate_dcf_valor`: project `years`
cash flows by compounding the growth rate onto revenue and applying the
FCF margin. -/
def project_fcf (revenue fcf_margin g : ℚ) (years : ℕ) : List ℚ :=
  projectAux fcf_margin g revenue years

/-- The comprehension `[fcf / (1 + discount_rate) ** (i + 1) for i, fcf in
enumerate(fcf_list)]` shared by `discount_cash_flows` and (with
`enumerate(fcf_list, start=1)`) `dcf_from_fcf_list`; `i` is the number of
items already consumed.  A zero denominator (`discount_rate == -1`) raises
`ZeroDivisionError`. -/
def discountList (r : ℚ) : List ℚ → ℕ → Except PyErr (List ℚ)
  | [], _ => .ok []
  | fcf :: rest, i =>
    if (1 + r) ^ (i + 1) = 0 then .error .zeroDivision
    else
      match discountList r rest (i + 1) with
      | .error e => .error e
      | .ok tl => .ok (fcf / (1 + r) ^ (i + 1) :: tl)

/-- `discount_cash_flows(fcf_list)` from `calculate_dcf_valor`
(src/utils/utils.py lines 590-596): raises (`ValueError`, here
`invalidAssumption`) when `terminal_growth_rate >= discount_rate`, else
returns the discounted explicit years plus the discounted Gordon terminal
value.  `fcf_list[-1]` on an empty list raises `IndexError`. -/
def discount_cash_flows (discount_rate terminal_growth_rate : ℚ) (years : ℕ)
    (fcf_list : List ℚ) : Except PyErr ℚ :=
  if terminal_growth_rate ≥ discount_rate then .error .invalidAssumption
  else
    match discountList discount_rate fcf_list 0 with
    | .error e => .error e
    | .ok discounted =>
      match fcf_list.getLast? with
      | none => .error .indexError
      | some last =>
        let terminal_value :=
          last * (1 + terminal_growth_rate) / (discount_rate - terminal_growth_rate)
        if (1 + discount_rate) ^ years = 0 then .error .zeroDivision
        else .ok (discounted.sum + terminal_value / (1 + discount_rate) ^ years)

/-- The successful return value of `calculate_dcf_valor`: the rounded
per-share Base/Bull/Bear values and the current price. -/
structure DCFOk where
  base : ℚ
  bull : ℚ
  bear : ℚ
  currentPrice : ℚ
  deriving Repr, DecidableEq

/-- `calculate_dcf_valor` (src/utils/utils.py lines 557-610).  The single
`try/except` wrapping the body means any raised error aborts the whole
three-scenario computation and becomes the lone `{"Error": str(e)}`
result, modelled as `Except.error`. -/
def calculate_dcf_valor (info : Info)
    (revenue_growth_base revenue_growth_bull revenue_growth_bear : ℚ)
    (discount_rate : ℚ) (years : ℕ) (terminal_growth_rate : ℚ) :
    Except PyErr DCFOk :=
  if !(truthy info.totalRevenue) || !(truthy info.freeCashflow)
      || !(truthy info.sharesOutstanding) then
    .error .missingData
  else
    let revenue := info.totalRevenue.getD 0
    let free_cf := info.freeCashflow.getD 0
    let shares_outstanding := info.sharesOutstanding.getD 0
    let current_price := info.currentPrice.getD 0
    let fcf_margin := if revenue ≠ 0 then free_cf / revenue else 15/100
    let total_debt := info.totalDebt.getD 0
    let cash := info.cash.getD 0
    let net_debt := total_debt - cash
    match discount_cash_flows discount_rate terminal_growth_rate years
        (project_fcf revenue fcf_margin revenue_growth_base years) with
    | .error e => .error e
    | .ok base_dcf =>
      match discount_cash_flows discount_rate terminal_growth_rate years
          (project_fcf revenue fcf_margin revenue_growth_bull years) with
      | .error e => .error e
      | .ok bull_dcf =>
        match discount_cash_flows discount_rate terminal_growth_rate years
            (project_fcf revenue fcf_margin revenue_growth_bear years) with
        | .error e => .error e
        | .ok bear_dcf =>
          .ok ⟨round2 ((base_dcf - net_debt) / shares_outstanding),
               round2 ((bull_dcf - net_debt) / shares_outstanding),
               round2 ((bear_dcf - net_debt) / shares_outstanding),
               current_price⟩

/-- The dictionary returned by `dcf_from_fcf_list` (DCF-calculator page). -/
structure DFRes where
  pv_years : List ℚ
  pv_terminal : ℚ
  ev : ℚ
  terminal : ℚ
  deriving Repr, DecidableEq

/-- The terminal-value step of `dcf_from_fcf_list`
(src/pages/6_DCF_Calculator.py lines 197-227).  Note there is no
`terminal_growth >= discount_rate` guard: the Gordon branch computes
`fcf_list[-1] * (1 + g) / (discount_rate - g)` directly, where
`g = terminal_growth or 0.0` (Python truthiness: `None` and `0.0` both
give `0.0`); Python raises `ZeroDivisionError` only when the denominator
is exactly zero, and `fcf_list[-1]` raises `IndexError` first on an empty
list.  The exit-multiple branch uses `exit_multiple or 10.0`. -/
def gordonTerminal (fcf_list : List ℚ) (discount_rate : ℚ)
    (terminal_growth exit_multiple : Option ℚ) (method : String) :
    Except PyErr ℚ :=
  if method = "gordon" then
    let g : ℚ := match terminal_growth with
      | none => 0
      | some v => if v = 0 then 0 else v
    match fcf_list.getLast? with
    | none => .error .indexError
    | some last =>
      if discount_rate - g = 0 then .error .zeroDivision
      else .ok (last * (1 + g) / (discount_rate - g))
  else
    let mult : ℚ := match exit_multiple with
      | none => 10
      | some v => if v = 0 then 10 else v
    match fcf_list.getLast? with
    | none => .error .indexError
    | some last => .ok (last * mult)

/-- `dcf_from_fcf_list` (src/pages/6_DCF_Calculator.py lines 197-227):
present value of the explicit years, then the (unguarded) terminal value,
then the terminal discounted back `N = len(fcf_list)` years and the
enterprise value.  `np.nansum(pv_years)` is an ordinary sum here because
the exact entries are never `NaN`. -/
def dcf_from_fcf_list (fcf_list : List ℚ) (discount_rate : ℚ)
    (terminal_growth exit_multiple : Option ℚ) (method : String) :
    Except PyErr DFRes :=
  match discountList discount_rate fcf_list 0 with
  | .error e => .error e
  | .ok pv_years =>
    match gordonTerminal fcf_list discount_rate terminal_growth exit_multiple method with
    | .error e => .error e
    | .ok terminal =>
      let N := fcf_list.length
      if (1 + discount_rate) ^ N = 0 then .error .zeroDivision
      else
        let pv_terminal := terminal / (1 + discount_rate) ^ N
        .ok ⟨pv_years, pv_terminal, pv_years.sum + pv_terminal, terminal⟩

/-- Whether a `calculate_dcf_valor` run produced scenario results at all. -/
def dcfOk? : Except PyErr DCFOk → Bool
  | .ok _ => true
  | .error _ => false

/-- Base per-share value of a successful run (0 on error). -/
def dcfBase : Except PyErr DCFOk → ℚ
  | .ok r => r.base
  | .error _ => 0

/-- Bull per-share value of a successful run (0 on error). -/
def dcfBull : Except PyErr DCFOk → ℚ
  | .ok r => r.bull
  | .error _ => 0

/-- Bear per-share value of a successful run (0 on error). -/
def dcfBear : Except PyErr DCFOk → ℚ
  | .ok r => r.bear
  | .error _ => 0

/-- Whether a `dcf_from_fcf_list` run returned a result dictionary. -/
def dfOk? : Except PyErr DFRes → Bool
  | .ok _ => true
  | .error _ => false

deriving instance DecidableEq for Except

theorem discountList_ok (r : ℚ) (h : (1 : ℚ) + r ≠ 0) :
    ∀ (l : List ℚ) (i : ℕ), ∃ out, discountList r l i = .ok out := by
  intro l
  induction l with
  | nil => exact fun i => ⟨[], rfl⟩
  | cons f t ih =>
    intro i
    have hp : (1 + r) ^ (i + 1) ≠ 0 := pow_ne_zero _ h
    obtain ⟨out, ho⟩ := ih (i + 1)
    exact ⟨f / (1 + r) ^ (i + 1) :: out, by simp [discountList, hp, ho]⟩

theorem getLast?_of_ne_nil {α : Type} (l : List α) (h : l ≠ []) :
    ∃ a, l.getLast? = some a := by
  cases hgl : l.getLast? with
  | none => exact absurd (List.getLast?_eq_none_iff.mp hgl) h
  | some a => exact ⟨a, rfl⟩

/-- C1 (amended): `discount_cash_flows` inside `calculate_dcf_valor` fails
with the typed `invalidAssumption` error whenever the terminal growth rate
is at least the discount rate, before any division can produce a value.
`dcf_from_fcf_list` has no such guard: with `g = r` (on a nonempty
cash-flow list with `r ≠ -1`) it fails with an untyped
`ZeroDivisionError`, and with `g > r` it silently returns a result
dictionary instead of failing. -/
theorem c1_guard_divergence (discount_rate terminal_growth_rate : ℚ) (years : ℕ)
    (fcf_list : List ℚ) (h : terminal_growth_rate ≥ discount_rate) :
    discount_cash_flows discount_rate terminal_growth_rate years fcf_list =
      .error .invalidAssumption
    ∧ (fcf_list ≠ [] → discount_rate ≠ -1 → terminal_growth_rate = discount_rate →
        dcf_from_fcf_list fcf_list discount_rate (some terminal_growth_rate) none
          "gordon" = .error .zeroDivision)
    ∧ (fcf_list ≠ [] → discount_rate ≠ -1 → discount_rate < terminal_growth_rate →
        dfOk? (dcf_from_fcf_list fcf_list discount_rate (some terminal_growth_rate)
          none "gordon") = true) := by
  refine ⟨by simp [discount_cash_flows, h], ?_, ?_⟩
  · intro hne hr1 heq
    have h1r : (1 : ℚ) + discount_rate ≠ 0 := fun hc => hr1 (by linarith)
    obtain ⟨out, ho⟩ := discountList_ok discount_rate h1r fcf_list 0
    obtain ⟨last, hlast⟩ := getLast?_of_ne_nil fcf_list hne
    have hg : discount_rate -
        (if terminal_growth_rate = 0 then 0 else terminal_growth_rate) = 0 := by
      split_ifs with h0
      · rw [sub_zero, ← heq]; exact h0
      · rw [heq, sub_self]
    simp [dcf_from_fcf_list, gordonTerminal, ho, hlast, hg]
  · intro hne hr1 hlt
    have h1r : (1 : ℚ) + discount_rate ≠ 0 := fun hc => hr1 (by linarith)
    obtain ⟨out, ho⟩ := discountList_ok discount_rate h1r fcf_list 0
    obtain ⟨last, hlast⟩ := getLast?_of_ne_nil fcf_list hne
    have hg : discount_rate -
        (if terminal_growth_rate = 0 then 0 else terminal_growth_rate) ≠ 0 := by
      split_ifs with h0
      · subst h0; intro hc; rw [sub_zero] at hc; exact absurd hc (by linarith)
      · intro hc; have : discount_rate = terminal_growth_rate := by linarith
        exact absurd this (by linarith)
    have hpN : (1 + discount_rate) ^ fcf_list.length ≠ 0 := pow_ne_zero _ h1r
    simp [dcf_from_fcf_list, gordonTerminal, ho, hlast, hg, hpN, dfOk?]

/-- C1 (witness): at `r = 1/20`, `g = 1/20`, five years and the cash-flow
list `[100]`, the utils-side valuator raises the typed error while the
page-side valuator hits a raw division by zero. -/
theorem c1_guard_divergence_witness :
    discount_cash_flows (1/20) (1/20) 5 [100] = .error .invalidAssumption ∧
    dcf_from_fcf_list [100] (1/20) (some (1/20)) none "gordon" =
      .error .zeroDivision := by
  have h := c1_guard_divergence (1/20) (1/20) 5 [100] le_rfl
  exact ⟨h.1, h.2.1 (by decide) (by norm_num) rfl⟩

/-- C1 (counterexample): with `g = 1/10 > r = 1/20`, `dcf_from_fcf_list`
does not fail at all: it silently returns a result dictionary (with a
negative terminal value), contradicting the claim that every DCF valuation
with `g ≥ r` fails with a typed `InvalidAssumption` error. -/
theorem c1_counterexample :
    dcf_from_fcf_list [100] (1/20) (some (1/10)) none "gordon" =
      .ok ⟨[2000/21], -44000/21, -2000, -2200⟩ := by
  norm_num [dcf_from_fcf_list, discountList, gordonTerminal]

/-! ## C2: scenario monotonicity of `calculate_dcf_valor` -/

/-- The pure value of the comprehension modelled by `discountList`, when no
division by zero occurs (proof helper). -/
def pvList (r : ℚ) : List ℚ → ℕ → List ℚ
  | [], _ => []
  | fcf :: rest, i => fcf / (1 + r) ^ (i + 1) :: pvList r rest (i + 1)

theorem discountList_eq_pvList {r : ℚ} (h : (1 : ℚ) + r ≠ 0) :
    ∀ (l : List ℚ) (i : ℕ), discountList r l i = .ok (pvList r l i)
  | [], _ => rfl
  | fcf :: rest, i => by
    rw [discountList, if_neg (pow_ne_zero (i + 1) h),
      discountList_eq_pvList h rest (i + 1)]
    rfl

theorem pvList_sum_le {r : ℚ} (hr : (0 : ℚ) < 1 + r) {l1 l2 : List ℚ}
    (hf : List.Forall₂ (· ≤ ·) l1 l2) :
    ∀ i : ℕ, (pvList r l1 i).sum ≤ (pvList r l2 i).sum := by
  induction hf with
  | nil => intro i; simp [pvList]
  | cons hab htl ih =>
    intro i
    simp only [pvList, List.sum_cons]
    have hd : (0 : ℚ) < (1 + r) ^ (i + 1) := pow_pos hr _
    exact add_le_add ((div_le_div_iff_of_pos_right hd).mpr hab) (ih (i + 1))

theorem projectAux_forall₂ {m g1 g2 : ℚ} (hg1 : -1 ≤ g1) (hgle : g1 ≤ g2) :
    ∀ (n : ℕ) (rev1 rev2 : ℚ), 0 ≤ rev1 * m → rev1 * m ≤ rev2 * m →
      List.Forall₂ (· ≤ ·) (projectAux m g1 rev1 n) (projectAux m g2 rev2 n)
  | 0, _, _, _, _ => List.Forall₂.nil
  | n + 1, rev1, rev2, h0, hle => by
    have h11 : (0 : ℚ) ≤ 1 + g1 := by linarith
    have hhead : rev1 * (1 + g1) * m ≤ rev2 * (1 + g2) * m := by
      calc rev1 * (1 + g1) * m = (1 + g1) * (rev1 * m) := by ring
      _ ≤ (1 + g2) * (rev2 * m) :=
        mul_le_mul (by linarith) hle h0 (by linarith)
      _ = rev2 * (1 + g2) * m := by ring
    have hhead0 : (0 : ℚ) ≤ rev1 * (1 + g1) * m := by
      calc (0 : ℚ) ≤ (1 + g1) * (rev1 * m) := mul_nonneg h11 h0
      _ = rev1 * (1 + g1) * m := by ring
    exact List.Forall₂.cons hhead
      (projectAux_forall₂ hg1 hgle n (rev1 * (1 + g1)) (rev2 * (1 + g2))
        (by rw [mul_assoc] at hhead0 ⊢; exact hhead0)
        (by rw [mul_assoc] at hhead ⊢; exact hhead))

theorem projectAux_ne_nil (m g rev : ℚ) {n : ℕ} (h : 1 ≤ n) :
    projectAux m g rev n ≠ [] := by
  obtain ⟨k, rfl⟩ : ∃ k, n = k + 1 := ⟨n - 1, by omega⟩
  simp [projectAux]

theorem projectAux_getLast (m g : ℚ) :
    ∀ (n : ℕ) (rev : ℚ), 1 ≤ n →
      (projectAux m g rev n).getLast? = some (rev * (1 + g) ^ n * m)
  | 1, rev, _ => by
    simp only [projectAux, List.getLast?_singleton, Option.some.injEq]
    ring
  | n + 2, rev, _ => by
    have ih := projectAux_getLast m g (n + 1) (rev * (1 + g)) (by omega)
    rw [projectAux, projectAux, List.getLast?_cons_cons, ← projectAux, ih]
    congr 1
    ring

/-- The value `discount_cash_flows` returns on a successful run
(proof helper). -/
def scenarioValue (r tg : ℚ) (years : ℕ) (l : List ℚ) : ℚ :=
  (pvList r l 0).sum + (l.getLast?.getD 0) * (1 + tg) / (r - tg) / (1 + r) ^ years

theorem truthy_some_ne {v : ℚ} (h : v ≠ 0) : truthy (some v) = true := by
  simp [truthy, h]

theorem discount_cash_flows_eq {r tg : ℚ} {years : ℕ} {l : List ℚ}
    (hne : l ≠ []) (htr : tg < r) (h1r : (1 : ℚ) + r ≠ 0) :
    discount_cash_flows r tg years l = .ok (scenarioValue r tg years l) := by
  rw [discount_cash_flows, if_neg (not_le.mpr htr), discountList_eq_pvList h1r]
  obtain ⟨last, hlast⟩ := getLast?_of_ne_nil l hne
  rw [hlast]
  show (if (1 + r) ^ years = 0 then (Except.error PyErr.zeroDivision : Except PyErr ℚ)
      else Except.ok ((pvList r l 0).sum +
        last * (1 + tg) / (r - tg) / (1 + r) ^ years)) =
    Except.ok (scenarioValue r tg years l)
  rw [if_neg (pow_ne_zero years h1r), scenarioValue, hlast]
  dsimp only [Option.getD_some]

/-- Evaluation of a full `calculate_dcf_valor` run once the guard passes:
each scenario is the `scenarioValue` of its projection, shifted by net
debt, divided by the share count and rounded. -/
theorem calculate_dcf_valor_run (info : Info) (gBase gBull gBear r tg : ℚ)
    (years : ℕ) (rv fc sh : ℚ)
    (hrvEq : info.totalRevenue = some rv) (hrv0 : rv ≠ 0)
    (hfcEq : info.freeCashflow = some fc) (hfc0 : fc ≠ 0)
    (hshEq : info.sharesOutstanding = some sh) (hsh0 : sh ≠ 0)
    (htr : tg < r) (h1r : (1 : ℚ) + r ≠ 0) (hy : 1 ≤ years) :
    calculate_dcf_valor info gBase gBull gBear r years tg =
      .ok ⟨round2 ((scenarioValue r tg years (project_fcf rv (fc / rv) gBase years) -
              (info.totalDebt.getD 0 - info.cash.getD 0)) / sh),
           round2 ((scenarioValue r tg years (project_fcf rv (fc / rv) gBull years) -
              (info.totalDebt.getD 0 - info.cash.getD 0)) / sh),
           round2 ((scenarioValue r tg years (project_fcf rv (fc / rv) gBear years) -
              (info.totalDebt.getD 0 - info.cash.getD 0)) / sh),
           info.currentPrice.getD 0⟩ := by
  have hne : ∀ g : ℚ, project_fcf rv (fc / rv) g years ≠ [] := by
    intro g; rw [project_fcf]; exact projectAux_ne_nil _ _ _ hy
  rw [calculate_dcf_valor]
  rw [hrvEq, hfcEq, hshEq]
  rw [truthy_some_ne hrv0, truthy_some_ne hfc0, truthy_some_ne hsh0]
  simp only [Bool.not_true, Bool.or_self, Bool.false_or, Bool.or_false,
    Bool.false_eq_true, if_false, Option.getD_some, ne_eq, hrv0,
    not_false_eq_true, ite_true]
  rw [discount_cash_flows_eq (hne gBase) htr h1r,
    discount_cash_flows_eq (hne gBull) htr h1r,
    discount_cash_flows_eq (hne gBear) htr h1r]

/-- C2 (amended): if additionally the free cash flow and the shares
outstanding are strictly positive and all growth/terminal rates are at
least `-1` (with `-1 < r`), then ordered growth assumptions under a common
discount rate give ordered per-share values `Bear ≤ Base ≤ Bull`.  The
positivity of free cash flow is forced by the counterexample below: the
projected cash flows equal `free_cf * (1+g)^i`, so negative free cash flow
reverses the order. -/
theorem c2_monotonicity (info : Info) (gBull gBase gBear r tg : ℚ) (years : ℕ)
    (hrev : truthy info.totalRevenue = true)
    (hfcf : 0 < info.freeCashflow.getD 0)
    (hsh : 0 < info.sharesOutstanding.getD 0)
    (hgb : -1 ≤ gBear) (hg1 : gBear ≤ gBase) (hg2 : gBase ≤ gBull)
    (hr : -1 < r) (htg : -1 ≤ tg) (htr : tg < r) (hy : 1 ≤ years) :
    dcfOk? (calculate_dcf_valor info gBase gBull gBear r years tg) = true ∧
    dcfBear (calculate_dcf_valor info gBase gBull gBear r years tg) ≤
      dcfBase (calculate_dcf_valor info gBase gBull gBear r years tg) ∧
    dcfBase (calculate_dcf_valor info gBase gBull gBear r years tg) ≤
      dcfBull (calculate_dcf_valor info gBase gBull gBear r years tg) := by
  obtain ⟨rv, hrvEq, hrv0⟩ : ∃ v, info.totalRevenue = some v ∧ v ≠ 0 := by
    cases ho : info.totalRevenue with
    | none => rw [ho] at hrev; simp [truthy] at hrev
    | some v =>
      refine ⟨v, rfl, ?_⟩
      rw [ho] at hrev
      simpa [truthy, decide_eq_true_eq] using hrev
  obtain ⟨fc, hfcEq, hfc⟩ : ∃ v, info.freeCashflow = some v ∧ 0 < v := by
    cases ho : info.freeCashflow with
    | none => rw [ho] at hfcf; simp at hfcf
    | some v => rw [ho] at hfcf; exact ⟨v, rfl, by simpa using hfcf⟩
  obtain ⟨sh, hshEq, hshp⟩ : ∃ v, info.sharesOutstanding = some v ∧ 0 < v := by
    cases ho : info.sharesOutstanding with
    | none => rw [ho] at hsh; simp at hsh
    | some v => rw [ho] at hsh; exact ⟨v, rfl, by simpa using hsh⟩
  have hrpos : (0 : ℚ) < 1 + r := by linarith
  have h1r : (1 : ℚ) + r ≠ 0 := ne_of_gt hrpos
  have hrun := calculate_dcf_valor_run info gBase gBull gBear r tg years rv fc sh
    hrvEq hrv0 hfcEq (ne_of_gt hfc) hshEq (ne_of_gt hshp) htr h1r hy
  have hc : (0 : ℚ) ≤ rv * (fc / rv) := by
    have hx : rv * (fc / rv) = fc := by field_simp
    rw [hx]; exact le_of_lt hfc
  have hmono : ∀ g1 g2 : ℚ, -1 ≤ g1 → g1 ≤ g2 →
      round2 ((scenarioValue r tg years (project_fcf rv (fc / rv) g1 years) -
          (info.totalDebt.getD 0 - info.cash.getD 0)) / sh) ≤
      round2 ((scenarioValue r tg years (project_fcf rv (fc / rv) g2 years) -
          (info.totalDebt.getD 0 - info.cash.getD 0)) / sh) := by
    intro g1 g2 hge hgle
    apply round2_mono
    apply (div_le_div_iff_of_pos_right hshp).mpr
    apply sub_le_sub_right
    unfold scenarioValue
    apply add_le_add
    · exact pvList_sum_le hrpos
        (projectAux_forall₂ hge hgle years rv rv hc (le_refl _)) 0
    · rw [project_fcf, project_fcf, projectAux_getLast _ _ years rv hy,
        projectAux_getLast _ _ years rv hy]
      simp only [Option.getD_some]
      have hK : (0 : ℚ) ≤ (rv * (fc / rv)) * (1 + tg) / (r - tg) / (1 + r) ^ years :=
        div_nonneg (div_nonneg (mul_nonneg hc (by linarith)) (by linarith))
          (le_of_lt (pow_pos hrpos _))
      have hpg : (1 + g1) ^ years ≤ (1 + g2) ^ years :=
        pow_le_pow_left₀ (by linarith) (by linarith) years
      calc rv * (1 + g1) ^ years * (fc / rv) * (1 + tg) / (r - tg) / (1 + r) ^ years
          = (1 + g1) ^ years * ((rv * (fc / rv)) * (1 + tg) / (r - tg) / (1 + r) ^ years) := by
            ring
      _ ≤ (1 + g2) ^ years * ((rv * (fc / rv)) * (1 + tg) / (r - tg) / (1 + r) ^ years) :=
            mul_le_mul_of_nonneg_right hpg hK
      _ = rv * (1 + g2) ^ years * (fc / rv) * (1 + tg) / (r - tg) / (1 + r) ^ years := by
            ring
  rw [hrun]
  exact ⟨rfl, hmono gBear gBase hgb hg1, hmono gBase gBull (by linarith) hg2⟩

/-- C2 (witness): positive free cash flow, ordered growth rates
`0.18 ≥ 0.10 ≥ 0.05`, common discount rate `0.10`: the per-share values
come out ordered `Bear ≤ Base ≤ Bull`. -/
theorem c2_monotonicity_witness :
    dcfOk? (calculate_dcf_valor ⟨some 100, some 10, some 2, none, some 5, some 3⟩
      (1/10) (18/100) (1/20) (1/10) 5 (1/40)) = true ∧
    dcfBear (calculate_dcf_valor ⟨some 100, some 10, some 2, none, some 5, some 3⟩
      (1/10) (18/100) (1/20) (1/10) 5 (1/40)) ≤
      dcfBase (calculate_dcf_valor ⟨some 100, some 10, some 2, none, some 5, some 3⟩
        (1/10) (18/100) (1/20) (1/10) 5 (1/40)) ∧
    dcfBase (calculate_dcf_valor ⟨some 100, some 10, some 2, none, some 5, some 3⟩
      (1/10) (18/100) (1/20) (1/10) 5 (1/40)) ≤
      dcfBull (calculate_dcf_valor ⟨some 100, some 10, some 2, none, some 5, some 3⟩
        (1/10) (18/100) (1/20) (1/10) 5 (1/40)) :=
  c2_monotonicity ⟨some 100, some 10, some 2, none, some 5, some 3⟩
    (18/100) (1/10) (1/20) (1/10) (1/40) 5
    (by simp [truthy]) (by norm_num) (by norm_num) (by norm_num) (by norm_num)
    (by norm_num) (by norm_num) (by norm_num) (by norm_num) (by norm_num)

theorem roundHalfEven_gap {x y : ℚ} (h : x + 2 ≤ y) :
    roundHalfEven x < roundHalfEven y := by
  have h1 : roundHalfEven x ≤ ⌊x⌋ + 1 := roundHalfEven_le x
  have h2 : ⌊y⌋ ≤ roundHalfEven y := roundHalfEven_ge y
  have h3 : ⌊x⌋ + 2 ≤ ⌊y⌋ := by
    have h4 : ⌊x + ((2 : ℤ) : ℚ)⌋ ≤ ⌊y⌋ := Int.floor_le_floor (by push_cast; linarith)
    rwa [Int.floor_add_int] at h4
  omega

theorem round2_gap {x y : ℚ} (h : x + 1/50 ≤ y) : round2 x < round2 y := by
  unfold round2
  have h2 : (100 : ℚ) * x + 2 ≤ 100 * y := by linarith
  have hlt := roundHalfEven_gap h2
  have hc : (roundHalfEven (100 * x) : ℚ) < (roundHalfEven (100 * y) : ℚ) := by
    exact_mod_cast hlt
  linarith

/-- C2 (counterexample): a fundamentals snapshot with positive revenue but
negative free cash flow (`totalRevenue = 100`, `freeCashflow = -10`,
`sharesOutstanding = 1`), growth rates ordered Bull `0.18` ≥ Base `0.10`
≥ Bear `0.05`, one common discount rate `0.10` and terminal growth
`0.025`: all three scenarios succeed, yet the Bull per-share value is
strictly below the Bear per-share value. -/
theorem c2_counterexample :
    dcfOk? (calculate_dcf_valor ⟨some 100, some (-10), some 1, none, none, none⟩
      (1/10) (18/100) (1/20) (1/10) 5 (1/40)) = true ∧
    dcfBull (calculate_dcf_valor ⟨some 100, some (-10), some 1, none, none, none⟩
      (1/10) (18/100) (1/20) (1/10) 5 (1/40)) <
    dcfBear (calculate_dcf_valor ⟨some 100, some (-10), some 1, none, none, none⟩
      (1/10) (18/100) (1/20) (1/10) 5 (1/40)) := by
  have hrun := calculate_dcf_valor_run ⟨some 100, some (-10), some 1, none, none, none⟩
    (1/10) (18/100) (1/20) (1/10) (1/40) 5 100 (-10) 1
    rfl (by norm_num) rfl (by norm_num) rfl (by norm_num) (by norm_num) (by norm_num)
    (by norm_num)
  rw [hrun]
  refine ⟨rfl, ?_⟩
  show round2 _ < round2 _
  apply round2_gap
  norm_num [scenarioValue, project_fcf, projectAux, pvList]

/-! ## C5: missing-input behaviour of `calculate_dcf_valor` -/

/-- C5 (amended): when revenue, free cash flow or shares outstanding is
absent (or zero, since the guard uses Python truthiness), the whole
three-scenario computation of `calculate_dcf_valor` returns the single
error result produced by `raise ValueError("Missing required financial
data.")`; no scenario returns a value.  The scenarios share every input,
so none can fail independently, and there is no revenue-margin fallback
for a missing free cash flow. -/
theorem c5_missing_input (info : Info) (gBase gBull gBear r : ℚ) (years : ℕ)
    (tg : ℚ)
    (h : truthy info.totalRevenue = false ∨ truthy info.freeCashflow = false ∨
      truthy info.sharesOutstanding = false) :
    calculate_dcf_valor info gBase gBull gBear r years tg =
      .error .missingData := by
  rw [calculate_dcf_valor]
  rcases h with h | h | h <;> rw [h] <;> simp

/-- C5 (witness): free cash flow absent while revenue and shares are
present makes the whole computation return the error result. -/
theorem c5_missing_input_witness :
    calculate_dcf_valor ⟨some 1000000, none, some 1000000, none, none, none⟩
      (1/10) (18/100) (1/20) (1/10) 5 (1/40) = .error .missingData :=
  c5_missing_input _ _ _ _ _ _ _ (Or.inr (Or.inl rfl))

/-- C5 (counterexample): a fundamentals snapshot whose only missing field
is the free cash flow (revenue `1000000` and shares `1000000` are present,
so by the claim each scenario has sufficient data through the
revenue-times-margin fallback): the code aborts the whole multi-scenario
computation with one untyped error result, producing no per-scenario
`MissingInput` value and no result for any scenario. -/
theorem c5_counterexample :
    calculate_dcf_valor ⟨some 1000000, none, some 1000000, none, none, none⟩
      (1/10) (18/100) (1/20) (1/10) 5 (1/40) = .error .missingData := by
  norm_num [calculate_dcf_valor, truthy]

/-! ## C4: BUY/HOLD/SELL classification of the price-action score -/

/-- The three trading signals of the Stock-Info page. -/
inductive Signal where
  | buy
  | hold
  | sell
  deriving Repr, DecidableEq

/-- The classification of the price-action score
(src/pages/1_Stock_Info.py lines 115-124): `score >= 7` is BUY,
`score >= 4` is HOLD, anything else SELL. -/
def classifySignal (score : ℤ) : Signal :=
  if score ≥ 7 then .buy else if score ≥ 4 then .hold else .sell

/-- C4 (confirmed): the signal is BUY exactly when `7 ≤ score`, HOLD
exactly when `4 ≤ score < 7` and SELL exactly when `score < 4`; since
`classifySignal` is a total function into the three-constructor `Signal`
type, exactly one of the three signals is produced. -/
theorem c4_thresholds (s : ℤ) :
    (classifySignal s = .buy ↔ 7 ≤ s) ∧
    (classifySignal s = .hold ↔ 4 ≤ s ∧ s < 7) ∧
    (classifySignal s = .sell ↔ s < 4) := by
  refine ⟨?_, ?_, ?_⟩ <;> unfold classifySignal <;> split_ifs <;>
    simp_all <;> omega

/-! ## C3: the price-action rule table (`analyze_price_action` scoring) -/

/-- The indicator values `analyze_price_action` extracts from the last two
rows of the indicator DataFrame before scoring (src/utils/utils.py lines
484-497). -/
structure Snapshot where
  price : ℝ
  rsi : ℝ
  tenkan : ℝ
  kijun : ℝ
  span_a : ℝ
  span_b : ℝ
  recent_volume : ℝ
  avg_volume : ℝ
  bb_high : ℝ
  bb_low : ℝ
  recent_macd : ℝ
  recent_signal : ℝ
  prev_macd : ℝ
  prev_signal : ℝ

/-- First block of the scoring code (RSI analysis): transforms the running
`(score, explanations)` pair. -/
noncomputable def rsiStep (s : Snapshot) (acc : ℤ × List String) : ℤ × List String :=
  if 50 < s.rsi ∧ s.rsi < 70 then
    (acc.1 + 2, acc.2 ++ ["✅ RSI is strong and bullish."])
  else if s.rsi ≥ 70 then
    (acc.1, acc.2 ++ ["⚠️ RSI indicates overbought conditions."])
  else (acc.1, acc.2 ++ ["📉 RSI is bearish or neutral."])

/-- Second block (Ichimoku price position). -/
noncomputable def cloudStep (s : Snapshot) (acc : ℤ × List String) : ℤ × List String :=
  if s.price > s.span_a ∧ s.price > s.span_b then
    (acc.1 + 2, acc.2 ++ ["✅ Price is above the cloud (bullish)."])
  else if s.price < s.span_a ∧ s.price < s.span_b then
    (acc.1, acc.2 ++ ["📉 Price is below the cloud (bearish)."])
  else (acc.1, acc.2 ++ ["⚠️ Price is within the cloud (neutral)."])

/-- Third block (Tenkan-sen vs Kijun-sen). -/
noncomputable def tenkanStep (s : Snapshot) (acc : ℤ × List String) : ℤ × List String :=
  if s.tenkan > s.kijun then
    (acc.1 + 1, acc.2 ++ ["✅ Bullish crossover of Tenkan-sen over Kijun-sen."])
  else (acc.1, acc.2 ++ ["📉 No bullish crossover on Ichimoku."])

/-- Fourth block (volume check). -/
noncomputable def volumeStep (s : Snapshot) (acc : ℤ × List String) : ℤ × List String :=
  if s.recent_volume > s.avg_volume then
    (acc.1 + 1, acc.2 ++ ["✅ Volume is higher than average (strong interest)."])
  else (acc.1, acc.2 ++ ["📉 Volume is below average."])

/-- Fifth block (Bollinger Bands check). -/
noncomputable def bollingerStep (s : Snapshot) (acc : ℤ × List String) : ℤ × List String :=
  if s.price > s.bb_high then
    (acc.1 - 1, acc.2 ++ ["⚠️ Price is above upper Bollinger Band (potentially overbought)."])
  else if s.price < s.bb_low then
    (acc.1 + 1, acc.2 ++ ["✅ Price is below lower Bollinger Band (potentially oversold)."])
  else (acc.1, acc.2 ++ ["ℹ️ Price is within Bollinger Bands (neutral)."])

/-- Sixth block (MACD crossover scoring). -/
noncomputable def macdStep (s : Snapshot) (acc : ℤ × List String) : ℤ × List String :=
  if s.prev_macd < s.prev_signal ∧ s.recent_macd > s.recent_signal then
    (acc.1 + 2, acc.2 ++ ["✅ MACD bullish crossover."])
  else if s.prev_macd > s.prev_signal ∧ s.recent_macd < s.recent_signal then
    (acc.1 - 2, acc.2 ++ ["⚠️ MACD bearish crossover."])
  else (acc.1, acc.2 ++ ["⚠️ MACD is neutral."])

/-- The scoring block of `analyze_price_action` (src/utils/utils.py lines
499-555): `score = 0; explanations = []` followed by the six sequential
rule blocks, each adding its points to `score` and appending one
explanation; no block returns early. -/
noncomputable def analyze_score (s : Snapshot) : ℤ × List String :=
  macdStep s (bollingerStep s (volumeStep s (tenkanStep s (cloudStep s
    (rsiStep s (0, []))))))

/-- Rule 1: RSI strictly between 50 and 70 contributes `+2`. -/
noncomputable def rsiPoints (s : Snapshot) : ℤ :=
  if 50 < s.rsi ∧ s.rsi < 70 then 2 else 0

/-- Rule 2: price above both Ichimoku spans contributes `+2`. -/
noncomputable def cloudPoints (s : Snapshot) : ℤ :=
  if s.price > s.span_a ∧ s.price > s.span_b then 2 else 0

/-- Rule 3: conversion line above base line contributes `+1`. -/
noncomputable def tenkanPoints (s : Snapshot) : ℤ :=
  if s.tenkan > s.kijun then 1 else 0

/-- Rule 4: current volume above the 20-bar average contributes `+1`. -/
noncomputable def volumePoints (s : Snapshot) : ℤ :=
  if s.recent_volume > s.avg_volume then 1 else 0

/-- Rule 5: price above the upper Bollinger band contributes `-1`, below
the lower band `+1`. -/
noncomputable def bollingerPoints (s : Snapshot) : ℤ :=
  if s.price > s.bb_high then -1 else if s.price < s.bb_low then 1 else 0

/-- Rule 6: a MACD cross above the signal contributes `+2`, a cross below
`-2`. -/
noncomputable def macdPoints (s : Snapshot) : ℤ :=
  if s.prev_macd < s.prev_signal ∧ s.recent_macd > s.recent_signal then 2
  else if s.prev_macd > s.prev_signal ∧ s.recent_macd < s.recent_signal then -2
  else 0

/-- C3 (confirmed): the price-action score is the sum of the six
independent rule contributions, every rule is evaluated (one explanation
per rule, six in total, so no early exit), and the score is bounded by the
fixed interval `[-3, 9]`. -/
theorem c3_score_decomposition (s : Snapshot) :
    (analyze_score s).1 = rsiPoints s + cloudPoints s + tenkanPoints s +
      volumePoints s + bollingerPoints s + macdPoints s ∧
    -3 ≤ (analyze_score s).1 ∧ (analyze_score s).1 ≤ 9 ∧
    (analyze_score s).2.length = 6 := by
  have e1 : ∀ acc, (rsiStep s acc).1 = acc.1 + rsiPoints s ∧
      (rsiStep s acc).2.length = acc.2.length + 1 := by
    intro acc; unfold rsiStep rsiPoints; split_ifs <;> simp
  have e2 : ∀ acc, (cloudStep s acc).1 = acc.1 + cloudPoints s ∧
      (cloudStep s acc).2.length = acc.2.length + 1 := by
    intro acc; unfold cloudStep cloudPoints; split_ifs <;> simp
  have e3 : ∀ acc, (tenkanStep s acc).1 = acc.1 + tenkanPoints s ∧
      (tenkanStep s acc).2.length = acc.2.length + 1 := by
    intro acc; unfold tenkanStep tenkanPoints; split_ifs <;> simp
  have e4 : ∀ acc, (volumeStep s acc).1 = acc.1 + volumePoints s ∧
      (volumeStep s acc).2.length = acc.2.length + 1 := by
    intro acc; unfold volumeStep volumePoints; split_ifs <;> simp
  have e5 : ∀ acc, (bollingerStep s acc).1 = acc.1 + bollingerPoints s ∧
      (bollingerStep s acc).2.length = acc.2.length + 1 := by
    intro acc; unfold bollingerStep bollingerPoints; split_ifs <;> simp <;> omega
  have e6 : ∀ acc, (macdStep s acc).1 = acc.1 + macdPoints s ∧
      (macdStep s acc).2.length = acc.2.length + 1 := by
    intro acc; unfold macdStep macdPoints; split_ifs <;> simp <;> omega
  have hsum : (analyze_score s).1 = rsiPoints s + cloudPoints s + tenkanPoints s +
      volumePoints s + bollingerPoints s + macdPoints s := by
    unfold analyze_score
    rw [(e6 _).1, (e5 _).1, (e4 _).1, (e3 _).1, (e2 _).1, (e1 _).1]
    ring
  have hlen : (analyze_score s).2.length = 6 := by
    unfold analyze_score
    rw [(e6 _).2, (e5 _).2, (e4 _).2, (e3 _).2, (e2 _).2, (e1 _).2]
    rfl
  have h1 : 0 ≤ rsiPoints s ∧ rsiPoints s ≤ 2 := by
    unfold rsiPoints; split_ifs <;> omega
  have h2 : 0 ≤ cloudPoints s ∧ cloudPoints s ≤ 2 := by
    unfold cloudPoints; split_ifs <;> omega
  have h3 : 0 ≤ tenkanPoints s ∧ tenkanPoints s ≤ 1 := by
    unfold tenkanPoints; split_ifs <;> omega
  have h4 : 0 ≤ volumePoints s ∧ volumePoints s ≤ 1 := by
    unfold volumePoints; split_ifs <;> omega
  have h5 : -1 ≤ bollingerPoints s ∧ bollingerPoints s ≤ 1 := by
    unfold bollingerPoints; split_ifs <;> omega
  have h6 : -2 ≤ macdPoints s ∧ macdPoints s ≤ 2 := by
    unfold macdPoints; split_ifs <;> omega
  exact ⟨hsum, by rw [hsum]; omega, by rw [hsum]; omega, hlen⟩

/-! ## Monte Carlo simulator (`monte_carlo_simulation`, src/utils/utils.py
lines 227-246)

Simulated prices live in `ℝ` (the log-normal branch uses `exp`).  The
draws of `np.random.normal(0, vol)` are modelled as `vol * z i j`, where
`z` is an oracle of standard-normal draws supplied as an argument, `i` the
simulation index and `j` the day index. -/

noncomputable section

/-- pandas `Series.mean()`. -/
def listMean (xs : List ℝ) : ℝ := xs.sum / xs.length

/-- `data['Close'].pct_change().dropna()`: one relative change per
consecutive pair of closes (the leading `NaN` row is dropped). -/
def pct_change (closes : List ℝ) : List ℝ :=
  List.zipWith (fun prev cur => cur / prev - 1) closes closes.tail

/-- pandas `Series.std()` (sample standard deviation, `ddof = 1`). -/
def sampleStd (xs : List ℝ) : ℝ :=
  Real.sqrt ((xs.map (fun x => (x - listMean xs) ^ 2)).sum / ((xs.length : ℝ) - 1))

/-- `vol = volatility if volatility else daily_returns.std()`: Python
truthiness makes both `None` and `0.0` fall back to the historical
standard deviation. -/
def mcVol (closes : List ℝ) (volatility : Option ℝ) : ℝ :=
  match volatility with
  | none => sampleStd (pct_change closes)
  | some v => if v = 0 then sampleStd (pct_change closes) else v

/-- One day of a path: `prices.append(prices[-1] * exp(drift + shock))` in
the log-normal branch, `prices.append(prices[-1] * (1 + drift + shock))`
otherwise. -/
def mcStep (log_normal : Bool) (drift shock p : ℝ) : ℝ :=
  if log_normal then p * Real.exp (drift + shock) else p * (1 + drift + shock)

/-- `prices[1:]` of one simulated path: `n` remaining days starting from
price `p` at day index `j`; the day-`j` shock is `vol * z j`. -/
def mcPath (log_normal : Bool) (drift vol : ℝ) (z : ℕ → ℝ) :
    ℕ → ℝ → ℕ → List ℝ
  | 0, _, _ => []
  | n + 1, p, j =>
    mcStep log_normal drift (vol * z j) p ::
      mcPath log_normal drift vol z n (mcStep log_normal drift (vol * z j) p) (j + 1)

/-- `monte_carlo_simulation` (src/utils/utils.py lines 227-246): after
computing the shared drift and volatility, `data['Close'].iloc[-1]` raises
`IndexError` on an empty series; otherwise one path per simulation index
is returned (an empty matrix when `n_simulations == 0`, with no
validation of the simulation count). -/
def monte_carlo_simulation (closes : List ℝ) (z : ℕ → ℕ → ℝ)
    (n_simulations n_days : ℕ) (log_normal : Bool) (volatility : Option ℝ) :
    Except PyErr (List (List ℝ)) :=
  let mean_return := listMean (pct_change closes)
  let vol := mcVol closes volatility
  match closes.getLast? with
  | none => .error .indexError
  | some last_price =>
    .ok ((List.range n_simulations).map
      (fun i => mcPath log_normal mean_return vol (z i) n_days last_price 0))

end

/-- C6 (amended): on any nonempty price series, `n_simulations == 0`
silently yields the empty simulation matrix: no error of any kind is
raised (the only raise site is `iloc[-1]` on an empty series). -/
theorem c6_zero_sims (closes : List ℝ) (z : ℕ → ℕ → ℝ) (n_days : ℕ)
    (log_normal : Bool) (volatility : Option ℝ) (h : closes ≠ []) :
    monte_carlo_simulation closes z 0 n_days log_normal volatility = .ok [] := by
  obtain ⟨lp, hlp⟩ := getLast?_of_ne_nil closes h
  simp [monte_carlo_simulation, hlp]

/-- C6 (witness): the two-bar series `[1, 2]` with zero simulations. -/
theorem c6_zero_sims_witness :
    monte_carlo_simulation [(1 : ℝ), 2] (fun _ _ => 0) 0 5 false none = .ok [] :=
  c6_zero_sims [(1 : ℝ), 2] (fun _ _ => 0) 5 false none (by simp)

/-- C6 (counterexample): calling the simulator with `n_simulations == 0`
on the series `[1, 2]` does not produce a typed `InvalidAssumption` input
error; it silently returns the empty matrix. -/
theorem c6_counterexample :
    monte_carlo_simulation [(1 : ℝ), 2] (fun _ _ => 0) 0 252 false none =
      .ok [] := by
  simp [monte_carlo_simulation]

/-- C7 (amended): the per-day shock scale `vol` equals the
`volatility` override only when the override is provided and truthy
(nonzero); an override of `0.0`, like `None`, falls back to the sample
standard deviation of the historical daily returns. -/
theorem c7_vol_truthiness (closes : List ℝ) (volatility : Option ℝ) :
    (∀ v : ℝ, volatility = some v → v ≠ 0 → mcVol closes volatility = v) ∧
    (volatility = none ∨ volatility = some 0 →
      mcVol closes volatility = sampleStd (pct_change closes)) := by
  constructor
  · intro v hv hv0
    rw [hv]
    simp [mcVol, hv0]
  · intro h
    rcases h with h | h <;> rw [h] <;> simp [mcVol]

/-- C7 (witness): a truthy override `1/2` is used as is; the override `0`
falls back to the historical standard deviation. -/
theorem c7_vol_truthiness_witness :
    mcVol [(1 : ℝ), 2, 1] (some (1/2)) = 1/2 ∧
    mcVol [(1 : ℝ), 2, 1] (some 0) = sampleStd (pct_change [(1 : ℝ), 2, 1]) :=
  ⟨(c7_vol_truthiness [(1 : ℝ), 2, 1] (some (1/2))).1 (1/2) rfl (by norm_num),
   (c7_vol_truthiness [(1 : ℝ), 2, 1] (some 0)).2 (Or.inr rfl)⟩

/-- C7 (counterexample): on the series `[1, 2, 1]` with the explicit
override `volatility = 0.0` the shock scale is not `0`: the falsy override
is ignored and the (positive) historical standard deviation is used. -/
theorem c7_counterexample : mcVol [(1 : ℝ), 2, 1] (some 0) ≠ 0 := by
  have h1 : mcVol [(1 : ℝ), 2, 1] (some 0) = sampleStd (pct_change [(1 : ℝ), 2, 1]) := by
    simp [mcVol]
  have h2 : pct_change [(1 : ℝ), 2, 1] = [1, -(1/2)] := by
    norm_num [pct_change]
  have h3 : (([(1 : ℝ), -(1/2)].map (fun x => (x - listMean [(1 : ℝ), -(1/2)]) ^ 2)).sum /
      (([(1 : ℝ), -(1/2)].length : ℝ) - 1)) = 9/8 := by
    norm_num [listMean]
  rw [h1, h2, sampleStd, h3]
  exact ne_of_gt (Real.sqrt_pos.mpr (by norm_num))

/-! ## RSI helper (`compute_rsi`, src/utils/utils.py lines 270-278)

The pandas element-wise arithmetic of `compute_rsi` can produce `inf` and
`NaN` (`rs = avg_gain / avg_loss` with a zero average loss), so its result
is modelled by the extended float values `FVal`. -/

/-- Extended pandas float values: `NaN`, `±inf`, or a finite value. -/
inductive FVal where
  | nan
  | inf
  | ninf
  | val (q : ℚ)
  deriving Repr, DecidableEq

/-- IEEE-style division of two finite floats: `0/0` is `NaN`, a nonzero
numerator over zero is a signed infinity. -/
def fdiv (a b : ℚ) : FVal :=
  if b = 0 then (if a = 0 then .nan else if a > 0 then .inf else .ninf)
  else .val (a / b)

/-- `rsi = 100 - (100 / (1 + rs))` in IEEE arithmetic: `rs = inf` (or
`-inf`) gives `100` because `100 / (1 + rs)` collapses to `0`; `rs = NaN`
stays `NaN`; a finite `rs` with `1 + rs = 0` would give `-inf`
(unreachable for the nonnegative averages produced here). -/
def rsiOfRs : FVal → FVal
  | .nan => .nan
  | .inf => .val 100
  | .ninf => .val 100
  | .val rs => if 1 + rs = 0 then .ninf else .val (100 - 100 / (1 + rs))

/-- `delta = series.diff()` without its leading `NaN` row. -/
def deltas (s : List ℚ) : List ℚ :=
  List.zipWith (fun cur prev => cur - prev) s.tail s

/-- `gain = delta.where(delta > 0, 0)`: the leading `NaN` delta compares
as `False` against `0`, so `where` replaces it by `0` (the head below). -/
def gains (s : List ℚ) : List ℚ :=
  0 :: (deltas s).map (fun d => if d > 0 then d else 0)

/-- `loss = -delta.where(delta < 0, 0)`, leading row again `0`. -/
def losses (s : List ℚ) : List ℚ :=
  0 :: (deltas s).map (fun d => if d < 0 then -d else 0)

/-- The last value of `gain.rolling(window=period).mean()`: the mean of
the final `period` entries. -/
def avg_gain (s : List ℚ) (period : ℕ) : ℚ :=
  ((gains s).drop (s.length - period)).sum / period

/-- The last value of `loss.rolling(window=period).mean()`. -/
def avg_loss (s : List ℚ) (period : ℕ) : ℚ :=
  ((losses s).drop (s.length - period)).sum / period

/-- `compute_rsi` (src/utils/utils.py lines 270-278): the final value of
`100 - 100/(1 + avg_gain/avg_loss)`.  With fewer than `period` rows the
last rolling mean is `NaN` and so is the result; with `avg_loss == 0` the
result is `inf`-propagation (`100`) or `NaN` (`0/0` on a flat window). -/
def compute_rsi (s : List ℚ) (period : ℕ) : FVal :=
  if s.length < period then .nan
  else rsiOfRs (fdiv (avg_gain s period) (avg_loss s period))

/-- Whether an extended float is a finite value inside `[lo, hi]`. -/
def FVal.between (v : FVal) (lo hi : ℚ) : Bool :=
  match v with
  | .val q => decide (lo ≤ q) && decide (q ≤ hi)
  | _ => false

theorem gains_nonneg (s : List ℚ) : ∀ x ∈ gains s, 0 ≤ x := by
  intro x hx
  rcases List.mem_cons.mp hx with h | h
  · exact le_of_eq h.symm
  · obtain ⟨d, _, rfl⟩ := List.mem_map.mp h
    split_ifs with hd <;> linarith

theorem losses_nonneg (s : List ℚ) : ∀ x ∈ losses s, 0 ≤ x := by
  intro x hx
  rcases List.mem_cons.mp hx with h | h
  · exact le_of_eq h.symm
  · obtain ⟨d, _, rfl⟩ := List.mem_map.mp h
    split_ifs with hd <;> linarith

theorem avg_gain_nonneg (s : List ℚ) (period : ℕ) : 0 ≤ avg_gain s period := by
  apply div_nonneg
  · exact List.sum_nonneg fun x hx => gains_nonneg s x (List.drop_subset _ _ hx)
  · exact_mod_cast Nat.zero_le period

theorem avg_loss_nonneg (s : List ℚ) (period : ℕ) : 0 ≤ avg_loss s period := by
  apply div_nonneg
  · exact List.sum_nonneg fun x hx => losses_nonneg s x (List.drop_subset _ _ hx)
  · exact_mod_cast Nat.zero_le period

/-- C8 (amended): with at least `period + 1 = 15` bars, whenever the last
window is not completely flat (some gain or some loss), the RSI is a
finite value in `[0, 100]`, and it equals exactly `100` whenever the
average loss is zero.  On a completely flat window (`avg_gain = avg_loss =
0`) the result is `NaN`, not `100` — see the counterexample. -/
theorem c8_rsi_range (s : List ℚ) (h15 : 15 ≤ s.length)
    (hnz : avg_gain s 14 ≠ 0 ∨ avg_loss s 14 ≠ 0) :
    (compute_rsi s 14).between 0 100 = true ∧
    (avg_loss s 14 = 0 → compute_rsi s 14 = .val 100) := by
  have hlen : ¬ (s.length < 14) := by omega
  have hg0 : 0 ≤ avg_gain s 14 := avg_gain_nonneg s 14
  have hl0 : 0 ≤ avg_loss s 14 := avg_loss_nonneg s 14
  rw [compute_rsi, if_neg hlen]
  by_cases hl : avg_loss s 14 = 0
  · have hg : avg_gain s 14 ≠ 0 := by tauto
    have hgpos : 0 < avg_gain s 14 := lt_of_le_of_ne hg0 (Ne.symm hg)
    rw [fdiv, if_pos hl, if_neg hg, if_pos hgpos]
    exact ⟨by simp [rsiOfRs, FVal.between], fun _ => by simp [rsiOfRs]⟩
  · have hlpos : 0 < avg_loss s 14 := lt_of_le_of_ne hl0 (Ne.symm hl)
    rw [fdiv, if_neg hl]
    have hrs : 0 ≤ avg_gain s 14 / avg_loss s 14 := div_nonneg hg0 hl0
    have h1rs : (0 : ℚ) < 1 + avg_gain s 14 / avg_loss s 14 := by linarith
    rw [rsiOfRs, if_neg (ne_of_gt h1rs)]
    refine ⟨?_, fun hc => absurd hc hl⟩
    simp only [FVal.between, Bool.and_eq_true, decide_eq_true_eq]
    constructor
    · have hle : 100 / (1 + avg_gain s 14 / avg_loss s 14) ≤ 100 :=
        div_le_self (by norm_num) (by linarith)
      linarith
    · have hpos : 0 < 100 / (1 + avg_gain s 14 / avg_loss s 14) :=
        div_pos (by norm_num) h1rs
      linarith

/-- C8 (witness): fifteen alternating closes `1, 2, 1, ...` — seven unit
gains and seven unit losses in the window, so `avg_gain = avg_loss = 1/2`
and the RSI is the finite value `50`, inside `[0, 100]`. -/
theorem c8_rsi_range_witness :
    15 ≤ ([1, 2, 1, 2, 1, 2, 1, 2, 1, 2, 1, 2, 1, 2, 1] : List ℚ).length ∧
    avg_loss [1, 2, 1, 2, 1, 2, 1, 2, 1, 2, 1, 2, 1, 2, 1] 14 ≠ 0 ∧
    (compute_rsi [1, 2, 1, 2, 1, 2, 1, 2, 1, 2, 1, 2, 1, 2, 1] 14).between 0 100 =
      true := by
  have hloss : avg_loss ([1, 2, 1, 2, 1, 2, 1, 2, 1, 2, 1, 2, 1, 2, 1] : List ℚ) 14 =
      1/2 := by
    norm_num [avg_loss, losses, deltas]
  refine ⟨by norm_num, by rw [hloss]; norm_num, ?_⟩
  exact (c8_rsi_range [1, 2, 1, 2, 1, 2, 1, 2, 1, 2, 1, 2, 1, 2, 1] (by norm_num)
    (Or.inr (by rw [hloss]; norm_num))).1

/-- C8 (counterexample): a completely flat series of fifteen bars has zero
average loss, yet the RSI is `NaN` (`0/0`), not `100`, and in particular
not a value in `[0, 100]`. -/
theorem c8_counterexample :
    avg_loss (List.replicate 15 (5 : ℚ)) 14 = 0 ∧
    compute_rsi (List.replicate 15 (5 : ℚ)) 14 = .nan ∧
    (compute_rsi (List.replicate 15 (5 : ℚ)) 14).between 0 100 = false := by
  have hg : avg_gain (List.replicate 15 (5 : ℚ)) 14 = 0 := by
    norm_num [avg_gain, gains, deltas, List.replicate]
  have hl : avg_loss (List.replicate 15 (5 : ℚ)) 14 = 0 := by
    norm_num [avg_loss, losses, deltas, List.replicate]
  have hrsi : compute_rsi (List.replicate 15 (5 : ℚ)) 14 = .nan := by
    rw [compute_rsi, if_neg (by norm_num), hg, hl, fdiv]
    norm_num [rsiOfRs]
  exact ⟨hl, hrsi, by rw [hrsi]; rfl⟩

/-! ## DataFrame model and `analyze_price_action`
(src/utils/utils.py lines 435-555)

The frame-effect and safety claims need the DataFrame itself: which
columns the function adds in place, which rows `dropna` keeps, and the
`iloc[-1]` / `iloc[-2]` accesses.  Cells are optional reals (`none` is
`NaN`).  Input OHLCV frames are `NaN`-free; the `NaN`s of the indicator
warm-up windows (the `min_periods` masking of the `ta` library) are
modelled explicitly by the column constructors, so a cell's presence is
decided by indices alone while its value carries the indicator
arithmetic. -/

noncomputable section

/-- A pandas DataFrame: ordered named columns of float cells. -/
structure DataFrame where
  cols : List (String × List (Option ℝ))

/-- `df[name]`, or `none` when the column is absent. -/
def DataFrame.getCol (df : DataFrame) (name : String) :
    Option (List (Option ℝ)) :=
  (df.cols.find? (fun c => c.1 == name)).map (fun c => c.2)

/-- `df[name] = v`: in-place overwrite if the column exists, else append
a new column at the end (the pandas column-assignment semantics). -/
def DataFrame.setCol (df : DataFrame) (name : String)
    (v : List (Option ℝ)) : DataFrame :=
  if df.cols.any (fun c => c.1 == name) then
    ⟨df.cols.map (fun c => if c.1 == name then (name, v) else c)⟩
  else ⟨df.cols ++ [(name, v)]⟩

/-- The ordered column names. -/
def DataFrame.names (df : DataFrame) : List String :=
  df.cols.map (fun c => c.1)

/-- The row count (length of the first column). -/
def DataFrame.nRows (df : DataFrame) : ℕ :=
  ((df.cols.head?).map (fun c => c.2.length)).getD 0

/-- Row `i` has no `NaN` in any column. -/
def DataFrame.rowOk (df : DataFrame) (i : ℕ) : Bool :=
  df.cols.all (fun c => (c.2.getD i none).isSome)

/-- `df.dropna()`: keep exactly the fully populated rows. -/
def DataFrame.dropna (df : DataFrame) : DataFrame :=
  ⟨df.cols.map (fun c =>
    (c.1, ((List.range df.nRows).filter (fun i => df.rowOk i)).map
      (fun i => c.2.getD i none)))⟩

/-- `df.iloc[i]` as a list of named cells. -/
def DataFrame.row (df : DataFrame) (i : ℕ) : List (String × Option ℝ) :=
  df.cols.map (fun c => (c.1, c.2.getD i none))

/-- `float(row[name])` (the rows consumed below are post-`dropna`, so the
cell is present). -/
def rowVal (r : List (String × Option ℝ)) (name : String) : ℝ :=
  (((r.find? (fun c => c.1 == name)).map (fun c => c.2)).getD none).getD 0

/-- The float values of an input column (NaN-free by assumption). -/
def colVals (c : List (Option ℝ)) : List ℝ := c.map (fun o => o.getD 0)

/-- The window of (at most) the last `w` entries ending at index `i`. -/
def windowSlice (xs : List ℝ) (i w : ℕ) : List ℝ :=
  (xs.take (i + 1)).drop (i + 1 - w)

/-- Maximum of a window. -/
def listMax : List ℝ → ℝ
  | [] => 0
  | x :: r => r.foldl max x

/-- Minimum of a window. -/
def listMin : List ℝ → ℝ
  | [] => 0
  | x :: r => r.foldl min x

/-- Population standard deviation (`ddof = 0`, as in `ta`'s Bollinger
bands). -/
def popStd (xs : List ℝ) : ℝ :=
  Real.sqrt ((xs.map (fun x => (x - listMean xs) ^ 2)).sum / xs.length)

/-- `series.rolling(w)` with an aggregator: `NaN` until the window is
full (`min_periods = w`). -/
def rollingCol (f : List ℝ → ℝ) (w : ℕ) (xs : List ℝ) : List (Option ℝ) :=
  (List.range xs.length).map (fun i =>
    if i + 1 < w then none else some (f (windowSlice xs i w)))

/-- The `ewm(adjust=False)` recursion after its seed. -/
def ewmFrom (a prev : ℝ) : List ℝ → List ℝ
  | [] => []
  | x :: rest =>
    ((1 - a) * prev + a * x) :: ewmFrom a ((1 - a) * prev + a * x) rest

/-- `ewm(adjust=False).mean()`, seeded by the first value. -/
def ewmRec (a : ℝ) : List ℝ → List ℝ
  | [] => []
  | x :: rest => x :: ewmFrom a x rest

/-- `series.ewm(span=span, min_periods=span, adjust=False).mean()`. -/
def emaMin (span : ℕ) (xs : List ℝ) : List (Option ℝ) :=
  (List.range xs.length).map (fun i =>
    if i + 1 < span then none else some ((ewmRec (2 / (span + 1)) xs).getD i 0))

/-- `ta.momentum.RSIIndicator(close).rsi()`: `ewm(alpha=1/14,
min_periods=14, adjust=False)` means over the up/down moves (the leading
`diff` row is already `0` through `where`), masked for the first 13 rows.
A flat-data `0/0` produces a `NaN` value rather than a masked cell; that
value-level behaviour is modelled by `compute_rsi` above and is not
tracked at cell level here. -/
def rsiCol (close : List ℝ) : List (Option ℝ) :=
  let up := 0 :: (List.zipWith (fun cur prev => cur - prev) close.tail close).map
    (fun d => if d > 0 then d else 0)
  let dn := 0 :: (List.zipWith (fun cur prev => cur - prev) close.tail close).map
    (fun d => if d < 0 then -d else 0)
  (List.range close.length).map (fun i =>
    if i + 1 < 14 then none
    else some (100 - 100 / (1 + (ewmRec (1/14) up).getD i 0 /
      (ewmRec (1/14) dn).getD i 0)))

/-- Combine two optional cells. -/
def opt2 (f : ℝ → ℝ → ℝ) : Option ℝ → Option ℝ → Option ℝ
  | some a, some b => some (f a b)
  | _, _ => none

/-- Ichimoku conversion line: 9-bar high/low midpoint. -/
def tenkanCol (high low : List ℝ) : List (Option ℝ) :=
  List.zipWith (opt2 (fun a b => (a + b) / 2))
    (rollingCol listMax 9 high) (rollingCol listMin 9 low)

/-- Ichimoku base line: 26-bar high/low midpoint. -/
def kijunCol (high low : List ℝ) : List (Option ℝ) :=
  List.zipWith (opt2 (fun a b => (a + b) / 2))
    (rollingCol listMax 26 high) (rollingCol listMin 26 low)

/-- Ichimoku span A: `(conversion + base) / 2` (`visual=False`, so no
forward shift). -/
def spanACol (high low : List ℝ) : List (Option ℝ) :=
  List.zipWith (opt2 (fun a b => (a + b) / 2))
    (tenkanCol high low) (kijunCol high low)

/-- Ichimoku span B: 52-bar high/low midpoint. -/
def spanBCol (high low : List ℝ) : List (Option ℝ) :=
  List.zipWith (opt2 (fun a b => (a + b) / 2))
    (rollingCol listMax 52 high) (rollingCol listMin 52 low)

/-- Bollinger upper band: 20-bar mean plus two population deviations. -/
def bbHighCol (close : List ℝ) : List (Option ℝ) :=
  List.zipWith (opt2 (fun m sd => m + 2 * sd))
    (rollingCol listMean 20 close) (rollingCol popStd 20 close)

/-- Bollinger lower band. -/
def bbLowCol (close : List ℝ) : List (Option ℝ) :=
  List.zipWith (opt2 (fun m sd => m - 2 * sd))
    (rollingCol listMean 20 close) (rollingCol popStd 20 close)

/-- MACD line: `EMA(12) - EMA(26)`, each with `min_periods` masking. -/
def macdCol (close : List ℝ) : List (Option ℝ) :=
  List.zipWith (opt2 (fun a b => a - b)) (emaMin 12 close) (emaMin 26 close)

/-- MACD signal line: `ewm(span=9, min_periods=9, adjust=False)` over the
masked MACD series; pandas skips the leading `NaN`s, seeds at the first
valid row `k` and masks the first eight valid outputs. -/
def signalCol (close : List ℝ) : List (Option ℝ) :=
  let m := macdCol close
  let k := m.findIdx (fun o => o.isSome)
  let es := ewmRec (2 / (9 + 1)) (m.filterMap id)
  (List.range m.length).map (fun i =>
    if i < k + 8 then none else some (es.getD (i - k) 0))

/-- The nine indicator columns `analyze_price_action` assigns, in source
order. -/
def indicatorCols (close high low : List ℝ) :
    List (String × List (Option ℝ)) :=
  [("RSI", rsiCol close),
   ("Tenkan_sen", tenkanCol high low),
   ("Kijun_sen", kijunCol high low),
   ("Senkou_span_a", spanACol high low),
   ("Senkou_span_b", spanBCol high low),
   ("bb_high", bbHighCol close),
   ("bb_low", bbLowCol close),
   ("macd", macdCol close),
   ("macd_signal", signalCol close)]

/-- The nine in-place column assignments `df['RSI'] = ...` through
`df['macd_signal'] = ...`, applied in order to the caller's frame. -/
def withIndicators (df : DataFrame) : DataFrame :=
  (indicatorCols (colVals ((df.getCol "Close").getD []))
      (colVals ((df.getCol "High").getD []))
      (colVals ((df.getCol "Low").getD []))).foldl
    (fun d c => d.setCol c.1 c.2) df

/-- The columns the function requires, in the order they are checked. -/
def requiredCols : List String := ["Close", "High", "Low", "Volume"]

/-- All required columns present. -/
def requiredOk (df : DataFrame) : Bool :=
  requiredCols.all (fun c => (df.getCol c).isSome)

/-- The tail of `analyze_price_action` (src/utils/utils.py lines
476-555) after the in-place indicator assignments: `df = df.dropna()`
rebinds a local name (the caller keeps every row); `if df.empty` raises
`InsufficientData` only when no row survives; `df.iloc[-2]` raises
`IndexError` when exactly one row survives; otherwise the snapshot of the
last two rows (plus the 20-bar average of the original volume column) is
scored.  The multi-column (`isinstance(close, pd.DataFrame)`) branches do
not arise for the flat frames modelled here. -/
def analyzeVerdict (df : DataFrame) : Except PyErr (ℤ × List String) :=
  let volume := colVals ((df.getCol "Volume").getD [])
  let dfd := (withIndicators df).dropna
  if dfd.nRows = 0 then .error .insufficientData
  else if dfd.nRows < 2 then .error .indexError
  else
    let recent := dfd.row (dfd.nRows - 1)
    let prev := dfd.row (dfd.nRows - 2)
    let avg_volume := (((rollingCol listMean 20 volume).getLast?).getD none).getD 0
    let snap : Snapshot :=
      ⟨rowVal recent "Close", rowVal recent "RSI", rowVal recent "Tenkan_sen",
       rowVal recent "Kijun_sen", rowVal recent "Senkou_span_a",
       rowVal recent "Senkou_span_b", rowVal recent "Volume", avg_volume,
       rowVal recent "bb_high", rowVal recent "bb_low", rowVal recent "macd",
       rowVal recent "macd_signal", rowVal prev "macd", rowVal prev "macd_signal"⟩
    .ok (analyze_score snap)

/-- The full call, as the pair of the returned result (or raised error)
and the post-call state of the caller's frame: when the required-column
check passes, the nine assignments have mutated the frame no matter which
way `analyzeVerdict` subsequently goes. -/
def analyze_price_action (df : DataFrame) :
    Except PyErr (ℤ × List String) × DataFrame :=
  match requiredCols.find? (fun c => (df.getCol c).isNone) with
  | some c => (.error (.missingColumn c), df)
  | none => (analyzeVerdict df, withIndicators df)

end

theorem find?_required_none {df : DataFrame} (hreq : requiredOk df = true) :
    requiredCols.find? (fun c => (df.getCol c).isNone) = none := by
  rw [List.find?_eq_none]
  intro c hc
  have hs := List.all_eq_true.mp hreq c hc
  cases ho : df.getCol c with
  | none => rw [ho] at hs; simp at hs
  | some v => simp

/-! ### C10: the one-surviving-row `IndexError` -/

/-- C10 (confirmed): whenever the required columns are present and,
after adding the indicator columns and dropping `NaN` rows, exactly one
row remains, `analyze_price_action` raises the unguarded `IndexError`
from `df.iloc[-2]`: the `if df.empty` guard covers only the zero-row
case, not every too-short input. -/
theorem c10_one_row_index_failure (df : DataFrame)
    (hreq : requiredOk df = true)
    (h1 : (withIndicators df).dropna.nRows = 1) :
    (analyze_price_action df).1 = .error .indexError := by
  rw [analyze_price_action, find?_required_none hreq]
  dsimp only
  rw [analyzeVerdict]
  dsimp only
  rw [h1]
  norm_num

/-- A 52-bar OHLCV frame: with the longest warm-up being the 52-bar
Ichimoku span B, exactly one row (the last) survives `dropna`. -/
def df52 : DataFrame :=
  ⟨[("Close", List.replicate 52 (some (1 : ℝ))),
    ("High", List.replicate 52 (some (1 : ℝ))),
    ("Low", List.replicate 52 (some (1 : ℝ))),
    ("Volume", List.replicate 52 (some (1 : ℝ)))]⟩

/-- C10 (witness): on the 52-bar frame exactly one row survives and the
analyzer fails with the raw `IndexError`. -/
theorem c10_one_row_index_failure_witness :
    requiredOk df52 = true ∧ (withIndicators df52).dropna.nRows = 1 ∧
    (analyze_price_action df52).1 = .error .indexError := by
  have hreq : requiredOk df52 = true := by decide
  have h1 : (withIndicators df52).dropna.nRows = 1 := by decide
  exact ⟨hreq, h1, c10_one_row_index_failure df52 hreq h1⟩

/-! ### C9: mutation of the input DataFrame -/

theorem getCol_none_any_false {df : DataFrame} {name : String}
    (h : df.getCol name = none) :
    df.cols.any (fun c => c.1 == name) = false := by
  unfold DataFrame.getCol at h
  have hf : df.cols.find? (fun c => c.1 == name) = none := by
    cases hf : df.cols.find? (fun c => c.1 == name) with
    | none => rfl
    | some c => rw [hf] at h; simp at h
  rw [List.any_eq_false]
  exact List.find?_eq_none.mp hf

theorem setCol_names_fresh (df : DataFrame) (name : String)
    (v : List (Option ℝ)) (h : df.getCol name = none) :
    (df.setCol name v).names = df.names ++ [name] := by
  unfold DataFrame.setCol
  rw [getCol_none_any_false h]
  simp [DataFrame.names]

theorem setCol_getCol_other (df : DataFrame) (name : String)
    (v : List (Option ℝ)) (m : String) (hm : m ≠ name) :
    (df.setCol name v).getCol m = df.getCol m := by
  unfold DataFrame.setCol DataFrame.getCol
  split_ifs with hany
  · dsimp only
    rw [List.find?_map]
    have hp : ((fun c : String × List (Option ℝ) => c.1 == m) ∘
        (fun c => if c.1 == name then (name, v) else c)) =
        (fun c : String × List (Option ℝ) => c.1 == m) := by
      funext c
      by_cases hc : (c.1 == name) = true
      · have hceq : c.1 = name := by simpa using hc
        simp [hceq]
      · have hcne : c.1 ≠ name := by simpa using hc
        simp [hcne]
    rw [hp]
    cases hf : df.cols.find? (fun c => c.1 == m) with
    | none => rfl
    | some c =>
      have hcm : c.1 = m := by simpa using List.find?_some hf
      have hcne : c.1 ≠ name := by rw [hcm]; exact hm
      simp [hcne]
  · dsimp only
    rw [List.find?_append]
    have h2 : List.find? (fun c : String × List (Option ℝ) => c.1 == m)
        [(name, v)] = none := by
      rw [List.find?_eq_none]
      intro x hx
      simp only [List.mem_singleton] at hx
      subst hx
      intro hbeq
      exact (Ne.symm hm) (by simpa using hbeq)
    rw [h2, Option.or_none]

theorem foldl_setCol_names :
    ∀ (l : List (String × List (Option ℝ))) (df : DataFrame),
      (l.map (fun c => c.1)).Nodup →
      (∀ p ∈ l, df.getCol p.1 = none) →
      (l.foldl (fun d c => d.setCol c.1 c.2) df).names =
        df.names ++ l.map (fun c => c.1)
  | [], df, _, _ => by simp
  | (n, v) :: t, df, hnd, hfresh => by
    simp only [List.foldl_cons, List.map_cons]
    have hfd : df.getCol n = none := hfresh (n, v) (List.mem_cons_self _ _)
    have hnd2 : (t.map (fun c => c.1)).Nodup := (List.nodup_cons.mp hnd).2
    have hnotin : n ∉ t.map (fun c => c.1) := (List.nodup_cons.mp hnd).1
    have hfresh2 : ∀ p ∈ t, (df.setCol n v).getCol p.1 = none := by
      intro p hp
      have hpn : p.1 ≠ n := by
        intro hc
        exact hnotin (hc ▸ List.mem_map_of_mem (fun c => c.1) hp)
      rw [setCol_getCol_other df n v p.1 hpn]
      exact hfresh p (List.mem_cons_of_mem _ hp)
    rw [foldl_setCol_names t (df.setCol n v) hnd2 hfresh2,
      setCol_names_fresh df n v hfd]
    simp

/-- The names of the nine indicator columns, in assignment order. -/
def indicatorNames : List String :=
  ["RSI", "Tenkan_sen", "Kijun_sen", "Senkou_span_a", "Senkou_span_b",
   "bb_high", "bb_low", "macd", "macd_signal"]

theorem indicatorCols_names (close high low : List ℝ) :
    (indicatorCols close high low).map (fun c => c.1) = indicatorNames := rfl

/-- C9 (amended): `monte_carlo_simulation` only reads its input (its
embedding takes the close series and returns a fresh matrix), but
`analyze_price_action` does mutate the caller's DataFrame: on any input
with the required columns and without the indicator columns, the caller's
frame ends up with the nine indicator columns (`RSI`, `Tenkan_sen`,
`Kijun_sen`, `Senkou_span_a`, `Senkou_span_b`, `bb_high`, `bb_low`,
`macd`, `macd_signal`) appended in place, so the input does not keep
exactly the columns it held before. -/
theorem c9_mutation (df : DataFrame)
    (hreq : requiredOk df = true)
    (hfresh : indicatorNames.all (fun n => (df.getCol n).isNone) = true) :
    ((analyze_price_action df).2).names = df.names ++ indicatorNames := by
  have hpost : (analyze_price_action df).2 = withIndicators df := by
    rw [analyze_price_action, find?_required_none hreq]
  rw [hpost, withIndicators]
  have hfr : ∀ p ∈ indicatorCols (colVals ((df.getCol "Close").getD []))
      (colVals ((df.getCol "High").getD []))
      (colVals ((df.getCol "Low").getD [])),
      df.getCol p.1 = none := by
    intro p hp
    have hmem : p.1 ∈ indicatorNames := by
      have hmm := List.mem_map_of_mem (fun c => c.1) hp
      rwa [indicatorCols_names] at hmm
    exact Option.isNone_iff_eq_none.mp (List.all_eq_true.mp hfresh p.1 hmem)
  rw [foldl_setCol_names _ df (by rw [indicatorCols_names]; decide) hfr,
    indicatorCols_names]

/-- A one-row OHLCV frame (concrete input for C9). -/
def df1row : DataFrame :=
  ⟨[("Close", [some (1 : ℝ)]), ("High", [some (1 : ℝ)]),
    ("Low", [some (1 : ℝ)]), ("Volume", [some (1 : ℝ)])]⟩

/-- C9 (witness): the one-row frame gains exactly the nine indicator
columns. -/
theorem c9_mutation_witness :
    ((analyze_price_action df1row).2).names = df1row.names ++ indicatorNames :=
  c9_mutation df1row (by decide) (by decide)

/-- C9 (counterexample): after calling `analyze_price_action` on the
one-row OHLCV frame, the caller's DataFrame is not the frame it passed
in: it now has thirteen columns instead of four (even though the call
raised the insufficient-data error), contradicting the claim that each
core component leaves its input unchanged. -/
theorem c9_counterexample : (analyze_price_action df1row).2 ≠ df1row := by
  intro h
  have h13 : ((analyze_price_action df1row).2).names.length = 13 := by decide
  rw [h] at h13
  exact absurd h13 (by decide)

end StocksAnalyser
